import Mathlib

/-!
Shallow embedding of the dashboard-atendimento-v3 data pipeline.

The repository is a pandas/streamlit reporting tool.  Dataframe rows are
embedded as Lean structures, dataframes as lists of rows, timestamps as
seconds since the epoch (naturals), and durations as integers.  Pandas
float semantics (NaN / inf produced by division, `fillna`, `replace`) are
embedded by the `PdVal` type.  Each definition mirrors one function of the
source tree, named after it.
-/

/-- One row of the base spreadsheet (`base.xlsx`) after the datetime
conversion done at the top of `validar_dados`: a queue-ticket lifecycle
record.  Timestamps are seconds since the epoch. -/
structure Registro where
  id : Nat
  prefixo : String
  status : String
  guiche : String
  usuario : String
  retirada : Nat
  inicio : Nat
  fim : Nat
  tpatend : Int
  tpesper : Int
deriving DecidableEq

/-- Hour-of-day of a timestamp (pandas `.dt.hour`). -/
def hourOf (t : Nat) : Nat := t / 3600 % 24

/-- Calendar day of a timestamp (pandas `.dt.date`), as a day index. -/
def dateOf (t : Nat) : Nat := t / 86400

/-- Pandas scalar values as produced by arithmetic on float columns:
either a finite value, NaN, or a signed infinity. -/
inductive PdVal where
  | num (q : ℚ)
  | nan
  | inf
  | ninf
deriving DecidableEq

/-- Pandas division `a / b` on float columns: `0/0 = NaN`,
`a/0 = ±inf` for `a ≠ 0`, ordinary division otherwise. -/
def pdDiv (a b : ℚ) : PdVal :=
  if b = 0 then (if a = 0 then .nan else if 0 < a then .inf else .ninf)
  else .num (a / b)

/-- Pandas multiplication of a float column by a finite constant. -/
def pdMulC (x : PdVal) (c : ℚ) : PdVal :=
  match x with
  | .num q => .num (q * c)
  | .nan => .nan
  | .inf => if 0 < c then .inf else if c = 0 then .nan else .ninf
  | .ninf => if 0 < c then .ninf else if c = 0 then .nan else .inf

/-- Pandas `.fillna(0)`: replaces NaN (only) by 0. -/
def fillna0 : PdVal → PdVal
  | .nan => .num 0
  | x => x

/-- Pandas `.replace([float(﹡inf﹡)], 100)`: replaces `+inf` (only) by 100,
as in `ociosidade.criar_grafico_comparativo` / `gerar_insights_ociosidade`. -/
def replaceInf100 : PdVal → PdVal
  | .inf => .num 100
  | x => x

/-- `carregar_dados.validar_dados`: keeps the rows with
`tpatend` between 60 and 1800, `tpesper` at most 14400, and status
in `{ATENDIDO, TRANSFERIDA}` (the boolean-mask filter of the source). -/
def validar_dados (df : List Registro) : List Registro :=
  df.filter (fun r =>
    decide (60 ≤ r.tpatend) && decide (r.tpatend ≤ 1800) &&
    decide (r.tpesper ≤ 14400) &&
    (r.status == "ATENDIDO" || r.status == "TRANSFERIDA"))

/-- `espera.determinar_turno` (hour-of-day case; the `pd.Timestamp` branch
of the source merely extracts `.hour` first). -/
def determinar_turno (hora : Nat) : String :=
  if 7 ≤ hora ∧ hora < 15 then "TURNO A"
  else if 15 ≤ hora ∧ hora < 23 then "TURNO B"
  else "TURNO C"

/-- `get_turno` as defined inline in `ociosidade.calcular_ociosidade_por_periodo`. -/
def get_turno_ociosidade (hour : Nat) : String :=
  if 7 ≤ hour ∧ hour < 15 then "TURNO A"
  else if 15 ≤ hour ∧ hour < 23 then "TURNO B"
  else "TURNO C"

/-- `get_turno` as defined inline in `mov_operacao.calcular_movimentacao_por_periodo`. -/
def get_turno_mov_operacao (hour : Nat) : String :=
  if 7 ≤ hour ∧ hour < 15 then "TURNO A"
  else if 15 ≤ hour ∧ hour < 23 then "TURNO B"
  else "TURNO C"

/-- Stable insertion into a list already sorted by service-start time. -/
def insereInicio (r : Registro) : List Registro → List Registro
  | [] => [r]
  | x :: xs => if r.inicio ≤ x.inicio then r :: x :: xs else x :: insereInicio r xs

/-- Pandas `sort_values(﹡inicio﹡)` inside
`ociosidade.calcular_ociosidade_por_periodo`: sort the day of services of
one operator by service-start time. -/
def sort_values_inicio (l : List Registro) : List Registro :=
  l.foldr insereInicio []

/-- The raw consecutive gaps `inicio[i+1] - fim[i]` of a sorted day, in
seconds (the loop over `range(len(atend_dia)-1)` of the source). -/
def intervalosConsecutivos : List Registro → List Int
  | a :: b :: rest => ((b.inicio : Int) - (a.fim : Int)) :: intervalosConsecutivos (b :: rest)
  | _ => []

/-- The gap list actually accumulated by the source: only gaps with
`0 < intervalo <= 7200` are appended to `intervalos`. -/
def intervalosDia (dia : List Registro) : List Int :=
  (intervalosConsecutivos (sort_values_inicio dia)).filter
    (fun g => decide (0 < g) && decide (g ≤ 7200))

/-- Python `max` on a list of integers (0 on the empty list, which the
source never hits). -/
def listMax : List Int → Int
  | [] => 0
  | h :: t => t.foldl max h

/-- The per-day idle total of the source: if the gap list is empty the day
produces no row; otherwise, when there are at least two gaps the first
occurrence of the maximum is removed (`intervalos.remove(max(intervalos))`)
and the remaining gaps are summed. -/
def tempo_ocioso_dia (dia : List Registro) : Option Int :=
  let ints := intervalosDia dia
  if ints.isEmpty then none
  else some ((if 1 < ints.length then ints.erase (listMax ints) else ints).sum)

/-- The services of operator `u` on day `d` (the boolean mask building
`atend_dia`). -/
def atendimentosDoDia (df : List Registro) (u : String) (d : Nat) : List Registro :=
  df.filter (fun r => r.usuario == u && dateOf r.retirada == d)

/-- The distinct withdrawal days of operator `u`
(`df_filtrado[...]['retirada'].dt.date.unique()`). -/
def diasDe (df : List Registro) (u : String) : List Nat :=
  ((df.filter (fun r => r.usuario == u)).map (fun r => dateOf r.retirada)).dedup

/-- `ociosidade.calcular_ociosidade_por_periodo`, per operator: the rows
collected for `u` (one per day with a nonempty gap list) averaged by the
final `groupby(﹡colaborador﹡).mean()`; `none` when `u` contributes no row. -/
def calcular_ociosidade_por_periodo (df : List Registro) (u : String) : Option ℚ :=
  let tempos := (diasDe df u).filterMap (fun d => tempo_ocioso_dia (atendimentosDoDia df u d))
  if tempos.isEmpty then none
  else some ((tempos.map (fun t => (t : ℚ))).sum / tempos.length)

/-- The claim C2 formula, written from the claim text: the day total is the
sum of all gaps between consecutive services minus the largest daily gap,
and the operator value is the mean of these daily totals. -/
def ociosidade_claim_dia (dia : List Registro) : Int :=
  let gaps := intervalosConsecutivos (sort_values_inicio dia)
  gaps.sum - listMax gaps

/-- The claim C2 per-operator value: mean of `ociosidade_claim_dia` over
the operator days. -/
def ociosidade_claim (df : List Registro) (u : String) : Option ℚ :=
  let dias := diasDe df u
  if dias.isEmpty then none
  else some ((dias.map (fun d => ((ociosidade_claim_dia (atendimentosDoDia df u d) : Int) : ℚ))).sum / dias.length)

/-- The amended C2 day total: gaps are kept only when strictly positive
and at most 7200 seconds; a day with no kept gap is skipped; the total is
the sum of kept gaps minus the largest kept gap, the subtraction applying
only when the day has at least two kept gaps. -/
def tempo_ocioso_dia_spec (dia : List Registro) : Option Int :=
  let g := intervalosDia dia
  if g.isEmpty then none
  else some (g.sum - if 2 ≤ g.length then listMax g else 0)

/-- The amended C2 per-operator value: mean of the amended day totals over
the contributing days. -/
def ociosidade_spec (df : List Registro) (u : String) : Option ℚ :=
  let tempos := (diasDe df u).filterMap (fun d => tempo_ocioso_dia_spec (atendimentosDoDia df u d))
  if tempos.isEmpty then none
  else some ((tempos.map (fun t => (t : ℚ))).sum / tempos.length)

/-- Concrete two-service day for operator ana: one positive gap of 100
seconds between the services. -/
def exC2 : List Registro :=
  [⟨1, "P1", "ATENDIDO", "G1", "ana", 900, 1000, 1010, 100, 50⟩,
   ⟨2, "P1", "ATENDIDO", "G1", "ana", 1100, 1110, 1200, 90, 10⟩]

/-- C1: `validar_dados` keeps a record iff `60 ≤ tpatend ≤ 1800`,
`tpesper ≤ 14400` and the status is ATENDIDO or TRANSFERIDA; dropped
records are gone, and the kept records are an unchanged subsequence of
the input. -/
theorem C1_validar_dados_filtra (df : List Registro) :
    (∀ r : Registro,
      (r ∈ validar_dados df ↔
        r ∈ df ∧ (60 ≤ r.tpatend ∧ r.tpatend ≤ 1800 ∧ r.tpesper ≤ 14400 ∧
          (r.status = "ATENDIDO" ∨ r.status = "TRANSFERIDA")))) ∧
    (validar_dados df).Sublist df := by
  constructor
  · intro r
    simp only [validar_dados, List.mem_filter, Bool.and_eq_true, decide_eq_true_eq,
      Bool.or_eq_true, beq_iff_eq]
    tauto
  · exact List.filter_sublist df

/-- C3: the shift bucket is a total function of the hour of day; on the 24
hours it maps 7–14 to TURNO A, 15–22 to TURNO B, and the remaining hours
(23 and 0–6) to TURNO C, each hour landing in exactly one bucket; and the
three copies of the function in the source (`determinar_turno` in espera,
`get_turno` in ociosidade and in mov_operacao) agree everywhere. -/
theorem C3_turno_particao (h : Nat) (hlt : h < 24) :
    ((determinar_turno h = "TURNO A" ↔ (7 ≤ h ∧ h ≤ 14)) ∧
     (determinar_turno h = "TURNO B" ↔ (15 ≤ h ∧ h ≤ 22)) ∧
     (determinar_turno h = "TURNO C" ↔ (h = 23 ∨ h ≤ 6))) ∧
    (∀ n : Nat, determinar_turno n = get_turno_ociosidade n ∧
      determinar_turno n = get_turno_mov_operacao n) := by
  refine ⟨?_, fun n => ⟨rfl, rfl⟩⟩
  interval_cases h <;> simp [determinar_turno]

/-- Witness for C3 at the concrete hour 15. -/
theorem C3_turno_particao_witness :
    ((determinar_turno 15 = "TURNO A" ↔ (7 ≤ 15 ∧ 15 ≤ 14)) ∧
     (determinar_turno 15 = "TURNO B" ↔ (15 ≤ 15 ∧ 15 ≤ 22)) ∧
     (determinar_turno 15 = "TURNO C" ↔ (15 = 23 ∨ 15 ≤ 6))) ∧
    (∀ n : Nat, determinar_turno n = get_turno_ociosidade n ∧
      determinar_turno n = get_turno_mov_operacao n) :=
  C3_turno_particao 15 (by decide)

/-- A left fold of `max` over integers is the start value or a list element. -/
theorem foldl_max_mem (t : List Int) (a : Int) : t.foldl max a = a ∨ t.foldl max a ∈ t := by
  induction t generalizing a with
  | nil => left; rfl
  | cons h tl ih =>
    rcases ih (max a h) with heq | hmem
    · rcases max_choice a h with h1 | h1
      · left; rw [List.foldl_cons, heq, h1]
      · right; rw [List.foldl_cons, heq, h1]; exact List.mem_cons_self ..
    · right; exact List.mem_cons_of_mem _ hmem

/-- Python `max` of a nonempty list is one of its elements. -/
theorem listMax_mem {l : List Int} (h : l ≠ []) : listMax l ∈ l := by
  match l with
  | x :: t =>
    rcases foldl_max_mem t x with heq | hmem
    · have : listMax (x :: t) = t.foldl max x := rfl
      rw [this, heq]; exact List.mem_cons_self ..
    · have : listMax (x :: t) = t.foldl max x := rfl
      rw [this]; exact List.mem_cons_of_mem _ hmem

/-- Removing the first occurrence of the maximum subtracts it from the sum. -/
theorem sum_erase_listMax {l : List Int} (h : l ≠ []) :
    (l.erase (listMax l)).sum = l.sum - listMax l := by
  have hperm := List.perm_cons_erase (listMax_mem h)
  have hs := hperm.sum_eq
  rw [List.sum_cons] at hs
  omega

/-- The remove-the-max day total of the source equals the amended
subtract-the-max formulation. -/
theorem tempo_ocioso_dia_eq_spec (dia : List Registro) :
    tempo_ocioso_dia dia = tempo_ocioso_dia_spec dia := by
  unfold tempo_ocioso_dia tempo_ocioso_dia_spec
  by_cases he : (intervalosDia dia).isEmpty
  · simp [he]
  · have hne : intervalosDia dia ≠ [] := by
      intro hnil; rw [hnil] at he; simp at he
    simp only [he, Bool.false_eq_true, if_false]
    by_cases h2 : 1 < (intervalosDia dia).length
    · rw [if_pos h2, if_pos (by omega : 2 ≤ (intervalosDia dia).length),
        sum_erase_listMax hne]
    · rw [if_neg h2, if_neg (by omega : ¬ 2 ≤ (intervalosDia dia).length)]
      simp

/-- C2 (amended): the reported per-operator ociosidade averages, over the
days on which the operator has at least one gap that is strictly positive
and at most 7200 seconds, the sum of those gaps minus — only when a day
has at least two such gaps — the largest of them. -/
theorem C2_ociosidade_amended (df : List Registro) (u : String) :
    calcular_ociosidade_por_periodo df u = ociosidade_spec df u := by
  unfold calcular_ociosidade_por_periodo ociosidade_spec
  have hfm : (fun d => tempo_ocioso_dia (atendimentosDoDia df u d)) =
      (fun d => tempo_ocioso_dia_spec (atendimentosDoDia df u d)) :=
    funext fun d => tempo_ocioso_dia_eq_spec _
  rw [hfm]

/-- C2 counterexample: on a day with exactly one gap (100 seconds) the code
reports 100 seconds of idle time, while the claim formula (sum of gaps
minus the largest daily gap) yields 0. -/
theorem C2_ociosidade_counterexample :
    calcular_ociosidade_por_periodo exC2 "ana" = some 100 ∧
    ociosidade_claim exC2 "ana" = some 0 ∧
    calcular_ociosidade_por_periodo exC2 "ana" ≠ ociosidade_claim exC2 "ana" := by
  have h1 : (diasDe exC2 "ana").filterMap
      (fun d => tempo_ocioso_dia (atendimentosDoDia exC2 "ana" d)) = [100] := by decide
  have h2 : diasDe exC2 "ana" = [0] := by decide
  have h3 : ociosidade_claim_dia (atendimentosDoDia exC2 "ana" 0) = 0 := by decide
  have hc : calcular_ociosidade_por_periodo exC2 "ana" = some 100 := by
    unfold calcular_ociosidade_por_periodo
    rw [h1]
    norm_num
  have ho : ociosidade_claim exC2 "ana" = some 0 := by
    unfold ociosidade_claim
    rw [h2]
    simp [h3]
  refine ⟨hc, ho, ?_⟩
  rw [hc, ho]
  decide

/-- One row of the `metricas_hora` dataframe built by
`gates_hora.calcular_gates_hora`. -/
structure MetricaHora where
  hora : Nat
  gates_ativos : Nat
  atendimentos : Nat
  media_atendimentos_gate : PdVal
deriving DecidableEq

/-- The filtered records whose service start falls in hour `h`
(the `groupby(df_filtrado[﹡inicio﹡].dt.hour)` group of `h`). -/
def registrosDaHora (df : List Registro) (h : Nat) : List Registro :=
  df.filter (fun r => hourOf r.inicio == h)

/-- `guichê.nunique()` for hour `h`, then `.map(...).fillna(0)`: the number
of distinct gate identifiers active in hour `h` (0 when the hour is empty). -/
def gates_ativos_hora (df : List Registro) (h : Nat) : Nat :=
  ((registrosDaHora df h).map (fun r => r.guiche)).dedup.length

/-- `id.count()` for hour `h`, then `.map(...).fillna(0)`: the number of
services starting in hour `h`. -/
def atendimentos_hora (df : List Registro) (h : Nat) : Nat :=
  (registrosDaHora df h).length

/-- `gates_hora.calcular_gates_hora`: the 24-row `metricas_hora` frame with
`media_atendimentos_gate = (atendimentos / gates_ativos).fillna(0)`. -/
def calcular_gates_hora (df : List Registro) : List MetricaHora :=
  (List.range 24).map (fun h =>
    ⟨h, gates_ativos_hora df h, atendimentos_hora df h,
      fillna0 (pdDiv (atendimentos_hora df h : ℚ) (gates_ativos_hora df h : ℚ))⟩)

/-- An hour with no active gate has no service starting in it. -/
theorem gates_ativos_eq_zero {df : List Registro} {h : Nat}
    (hg : gates_ativos_hora df h = 0) : registrosDaHora df h = [] := by
  unfold gates_ativos_hora at hg
  rw [List.length_eq_zero, List.dedup_eq_nil, List.map_eq_nil_iff] at hg
  exact hg

/-- C4: for every hour `h < 24`, `calcular_gates_hora` reports a row for
`h` whose `gates_ativos` is the number of distinct gate identifiers among
the records starting in hour `h`, whose `atendimentos` is the number of
such records, and whose `media_atendimentos_gate` is their quotient when
`gates_ativos > 0` and 0 when no service starts in the hour. -/
theorem C4_calcular_gates_hora (df : List Registro) (h : Nat) (hlt : h < 24) :
    ∃ m ∈ calcular_gates_hora df, m.hora = h ∧
      m.gates_ativos = ((registrosDaHora df h).map (fun r => r.guiche)).toFinset.card ∧
      m.atendimentos = (registrosDaHora df h).length ∧
      m.media_atendimentos_gate =
        .num (if gates_ativos_hora df h = 0 then 0
              else (atendimentos_hora df h : ℚ) / (gates_ativos_hora df h : ℚ)) ∧
      (registrosDaHora df h = [] → m.media_atendimentos_gate = .num 0) := by
  refine ⟨⟨h, gates_ativos_hora df h, atendimentos_hora df h,
    fillna0 (pdDiv (atendimentos_hora df h : ℚ) (gates_ativos_hora df h : ℚ))⟩, ?_, rfl, ?_, rfl, ?_, ?_⟩
  · unfold calcular_gates_hora
    exact List.mem_map.mpr ⟨h, List.mem_range.mpr hlt, rfl⟩
  · exact (List.card_toFinset _).symm
  · by_cases hg : gates_ativos_hora df h = 0
    · have hre : registrosDaHora df h = [] := gates_ativos_eq_zero hg
      have ha : atendimentos_hora df h = 0 := by
        unfold atendimentos_hora
        rw [hre]
        rfl
      simp [hg, ha, pdDiv, fillna0]
    · have hgq : (gates_ativos_hora df h : ℚ) ≠ 0 := Nat.cast_ne_zero.mpr hg
      simp [hg, pdDiv, hgq, fillna0]
  · intro hre
    have hg : gates_ativos_hora df h = 0 := by
      unfold gates_ativos_hora
      rw [hre]
      rfl
    have ha : atendimentos_hora df h = 0 := by
      unfold atendimentos_hora
      rw [hre]
      rfl
    simp [hg, ha, pdDiv, fillna0]

/-- Witness for C4 on an empty dataframe at hour 5. -/
theorem C4_calcular_gates_hora_witness :
    ∃ m ∈ calcular_gates_hora [], m.hora = 5 ∧
      m.gates_ativos = ((registrosDaHora [] 5).map (fun r => r.guiche)).toFinset.card ∧
      m.atendimentos = (registrosDaHora [] 5).length ∧
      m.media_atendimentos_gate =
        .num (if gates_ativos_hora [] 5 = 0 then 0
              else (atendimentos_hora [] 5 : ℚ) / (gates_ativos_hora [] 5 : ℚ)) ∧
      (registrosDaHora [] 5 = [] → m.media_atendimentos_gate = .num 0) :=
  C4_calcular_gates_hora [] 5 (by decide)

/-- One row of the code table (`codigo.xlsx`), restricted to the three
columns selected by the merge in `carregar_dados`. -/
structure Codigo where
  prefixo : String
  CLIENTE : String
  OPERACAO : String
deriving DecidableEq

/-- One row of `df_final` in `carregar_dados`: the base record with the
joined (possibly missing) client and operation codes and the
`tempo_permanencia` column. -/
structure RegistroFinal where
  reg : Registro
  CLIENTE : Option String
  OPERACAO : Option String
  tempo_permanencia : Int
deriving DecidableEq

/-- `pd.merge(df_base, df_codigo[...], on=﹡prefixo﹡, how=﹡left﹡)`: every
base row paired with each matching code row, or with missing codes when no
code row matches. -/
def merge_left_prefixo (base : List Registro) (cod : List Codigo) :
    List (Registro × Option String × Option String) :=
  base.flatMap (fun r =>
    if (cod.filter (fun c => c.prefixo == r.prefixo)).isEmpty then [(r, none, none)]
    else (cod.filter (fun c => c.prefixo == r.prefixo)).map
      (fun c => (r, some c.CLIENTE, some c.OPERACAO)))

/-- The tail of `carregar_dados`: the left merge followed by
`df_final[﹡tempo_permanencia﹡] = tpatend + tpesper`. -/
def carregar_dados_final (base : List Registro) (cod : List Codigo) : List RegistroFinal :=
  (merge_left_prefixo base cod).map
    (fun x => ⟨x.1, x.2.1, x.2.2, x.1.tpatend + x.1.tpesper⟩)

/-- The single final row produced for `r` when each prefixo occurs at most
once in the code table: the looked-up codes, or missing ones. -/
def linhaFinal (cod : List Codigo) (r : Registro) : RegistroFinal :=
  match cod.find? (fun c => c.prefixo == r.prefixo) with
  | some c => ⟨r, some c.CLIENTE, some c.OPERACAO, r.tpatend + r.tpesper⟩
  | none => ⟨r, none, none, r.tpatend + r.tpesper⟩

/-- When the code-table prefixes are pairwise distinct, filtering by one
prefixo returns the `find?` result (at most one row). -/
theorem filter_prefixo_of_nodup (cod : List Codigo) (p : String)
    (hu : (cod.map (fun c => c.prefixo)).Nodup) :
    cod.filter (fun c => c.prefixo == p) =
      (cod.find? (fun c => c.prefixo == p)).toList := by
  induction cod with
  | nil => rfl
  | cons c cs ih =>
    rw [List.map_cons, List.nodup_cons] at hu
    by_cases hc : (c.prefixo == p) = true
    · have hcs : cs.filter (fun c2 => c2.prefixo == p) = [] := by
        rw [List.filter_eq_nil_iff]
        intro c2 hc2
        rw [beq_iff_eq] at hc ⊢
        intro he
        exact hu.1 (by rw [hc, ← he]; exact List.mem_map.mpr ⟨c2, hc2, rfl⟩)
      have h1 : (c :: cs).filter (fun c2 => c2.prefixo == p) =
          c :: cs.filter (fun c2 => c2.prefixo == p) := by
        simp [List.filter_cons, hc]
      have h2 : (c :: cs).find? (fun c2 => c2.prefixo == p) = some c := by
        simp [List.find?_cons, hc]
      rw [h1, h2, hcs]
      rfl
    · have h1 : (c :: cs).filter (fun c2 => c2.prefixo == p) =
          cs.filter (fun c2 => c2.prefixo == p) := by
        simp [List.filter_cons, hc]
      have h2 : (c :: cs).find? (fun c2 => c2.prefixo == p) =
          cs.find? (fun c2 => c2.prefixo == p) := by
        simp [List.find?_cons, hc]
      rw [h1, h2]
      exact ih hu.2

/-- C5: assuming each prefixo occurs at most once in the code table, the
final table is exactly the validated base mapped row-by-row through the
prefixo lookup — one output row per input row, with missing CLIENTE and
OPERAÇÃO when the prefixo has no match — and every final row has
`tempo_permanencia = tpatend + tpesper`. -/
theorem C5_carregar_dados_merge (base : List Registro) (cod : List Codigo)
    (hu : (cod.map (fun c => c.prefixo)).Nodup) :
    carregar_dados_final base cod = base.map (linhaFinal cod) ∧
    (carregar_dados_final base cod).length = base.length ∧
    ∀ f ∈ carregar_dados_final base cod,
      f.tempo_permanencia = f.reg.tpatend + f.reg.tpesper := by
  have hmain : carregar_dados_final base cod = base.map (linhaFinal cod) := by
    induction base with
    | nil => rfl
    | cons r rs ih =>
      unfold carregar_dados_final merge_left_prefixo at ih ⊢
      rw [List.flatMap_cons, List.map_append, List.map_cons, ih,
        filter_prefixo_of_nodup cod r.prefixo hu]
      unfold linhaFinal
      cases cod.find? (fun c => c.prefixo == r.prefixo) with
      | none => rfl
      | some c => rfl
  refine ⟨hmain, by rw [hmain, List.length_map], ?_⟩
  intro f hf
  rw [hmain] at hf
  obtain ⟨r, _, rfl⟩ := List.mem_map.mp hf
  unfold linhaFinal
  cases cod.find? (fun c => c.prefixo == r.prefixo) with
  | none => rfl
  | some c => rfl

/-- Witness for C5: one base row whose prefixo matches the single code row. -/
theorem C5_carregar_dados_merge_witness :
    carregar_dados_final exC2 [⟨"P1", "CLI", "OP"⟩] =
      exC2.map (linhaFinal [⟨"P1", "CLI", "OP"⟩]) ∧
    (carregar_dados_final exC2 [⟨"P1", "CLI", "OP"⟩]).length = exC2.length ∧
    ∀ f ∈ carregar_dados_final exC2 [⟨"P1", "CLI", "OP"⟩],
      f.tempo_permanencia = f.reg.tpatend + f.reg.tpesper :=
  C5_carregar_dados_merge exC2 [⟨"P1", "CLI", "OP"⟩] (by decide)

/-- Python `str.lower` on one character, for the alphabets appearing in
the column names: ASCII letters and the Latin-1 accented capitals
(À–Þ except ×) are shifted to their lowercase forms. -/
def pyLowerChar (c : Char) : Char :=
  if ('A' ≤ c ∧ c ≤ 'Z') ∨ ('À' ≤ c ∧ c ≤ 'Þ' ∧ c ≠ '×') then
    Char.ofNat (c.toNat + 32)
  else c

/-- Python `str.lower` on a string. -/
def pyLower (s : String) : String := ⟨s.data.map pyLowerChar⟩

/-- Python whitespace stripped by `str.strip()`. -/
def pyIsSpace (c : Char) : Bool :=
  c == ' ' || c == '\t' || c == '\n' || c == '\r' || c == '\x0b' || c == '\x0c'

/-- Python `str.strip()`: drops whitespace from both ends. -/
def pyStrip (s : String) : String :=
  ⟨((s.data.dropWhile pyIsSpace).reverse.dropWhile pyIsSpace).reverse⟩

/-- The `mapa_colunas` dictionary of `carregar_dados.validar_colunas`, in
insertion order. -/
def mapa_colunas : List (String × String) :=
  [("status_descricao", "status"),
   ("status descrição", "status"),
   ("Status Descrição", "status"),
   ("Status", "status"),
   ("STATUS", "status"),
   ("guiche", "guichê"),
   ("guichê", "guichê"),
   ("Guichê", "guichê"),
   ("Guiche", "guichê"),
   ("GUICHE", "guichê"),
   ("usuario", "usuário"),
   ("usuário", "usuário"),
   ("Usuário", "usuário"),
   ("Usuario", "usuário"),
   ("USUARIO", "usuário"),
   ("retirada", "retirada"),
   ("inicio", "inicio"),
   ("fim", "fim"),
   ("tpatend", "tpatend"),
   ("tpesper", "tpesper")]

/-- `col_atual.lower().strip()` of the source. -/
def colLower (c : String) : String := pyStrip (pyLower c)

/-- The renaming applied to one column by the loop of `validar_colunas`:
the first dictionary key whose lowercased form matches the lowercased,
stripped column wins (the loop breaks); otherwise the column is kept. -/
def renomearColuna (c : String) : String :=
  match mapa_colunas.find? (fun kv => colLower c == pyLower kv.1) with
  | some kv => kv.2
  | none => c

/-- The `colunas_obrigatorias` list of `validar_colunas`. -/
def colunas_obrigatorias : List String :=
  ["status", "guichê", "usuário", "retirada", "inicio", "fim",
   "tpatend", "tpesper", "prefixo"]

/-- `carregar_dados.validar_colunas` on the column-name list: rename, then
raise `ValueError` when a required column is missing, else return the
renamed table. -/
def validar_colunas (cols : List String) : Except String (List String) :=
  if ((colunas_obrigatorias.filter
        (fun c => !((cols.map renomearColuna).contains c))).isEmpty) then
    .ok (cols.map renomearColuna)
  else .error "Estrutura do arquivo inválida"

/-- Two dictionary entries whose keys lowercase equally carry the same
canonical name (checked over the concrete 20-entry dictionary). -/
theorem mapa_colunas_coerente {a b : String × String}
    (ha : a ∈ mapa_colunas) (hb : b ∈ mapa_colunas)
    (hl : pyLower a.1 = pyLower b.1) : a.2 = b.2 := by
  have hall : mapa_colunas.all (fun x => mapa_colunas.all
      (fun y => !(pyLower x.1 == pyLower y.1) || (x.2 == y.2))) = true := by
    decide
  have h2 := List.all_eq_true.mp (List.all_eq_true.mp hall a ha) b hb
  simpa [hl] using h2

/-- The empty-missing-list test of `validar_colunas` says every required
column is present among the renamed columns. -/
theorem faltantes_isEmpty_iff (cols : List String) :
    ((colunas_obrigatorias.filter
        (fun c => !((cols.map renomearColuna).contains c))).isEmpty = true) ↔
      ∀ c ∈ colunas_obrigatorias, c ∈ cols.map renomearColuna := by
  rw [List.isEmpty_iff, List.filter_eq_nil_iff]
  constructor
  · intro hf c hc
    have := hf c hc
    simpa using this
  · intro hf c hc
    simpa using hf c hc

/-- C6: `validar_colunas` renames each column whose lowercased, stripped
name matches a dictionary alias case-insensitively to that alias's
canonical name and keeps unmatched columns; it fails with `ValueError`
exactly when one of the nine required columns is absent after renaming,
and otherwise returns the renamed columns, all required columns present. -/
theorem C6_validar_colunas (cols : List String) :
    (validar_colunas cols = .error "Estrutura do arquivo inválida" ↔
      ∃ c ∈ colunas_obrigatorias, c ∉ cols.map renomearColuna) ∧
    (∀ out, validar_colunas cols = .ok out →
      out = cols.map renomearColuna ∧ ∀ c ∈ colunas_obrigatorias, c ∈ out) ∧
    (∀ c : String, (∀ kv ∈ mapa_colunas, colLower c ≠ pyLower kv.1) →
      renomearColuna c = c) ∧
    (∀ (c : String) (kv : String × String), kv ∈ mapa_colunas →
      colLower c = pyLower kv.1 → renomearColuna c = kv.2) := by
  refine ⟨?_, ?_, ?_, ?_⟩
  · unfold validar_colunas
    by_cases he : ((colunas_obrigatorias.filter
        (fun c => !((cols.map renomearColuna).contains c))).isEmpty = true)
    · rw [if_pos he]
      simp only [reduceCtorEq, false_iff]
      rw [faltantes_isEmpty_iff] at he
      push_neg
      exact he
    · rw [if_neg he]
      simp only [true_iff]
      rw [faltantes_isEmpty_iff] at he
      push_neg at he
      exact he
  · intro out hout
    unfold validar_colunas at hout
    by_cases he : ((colunas_obrigatorias.filter
        (fun c => !((cols.map renomearColuna).contains c))).isEmpty = true)
    · rw [if_pos he] at hout
      have hre : cols.map renomearColuna = out := Except.ok.inj hout
      refine ⟨hre.symm, ?_⟩
      rw [← hre]
      exact faltantes_isEmpty_iff cols |>.mp he
    · rw [if_neg he] at hout
      exact absurd hout (by simp)
  · intro c hno
    unfold renomearColuna
    rw [List.find?_eq_none.mpr ?_]
    intro kv hkv
    simpa using hno kv hkv
  · intro c kv hkv hmatch
    unfold renomearColuna
    have hne : mapa_colunas.find? (fun kv2 => colLower c == pyLower kv2.1) ≠ none := by
      rw [Ne, List.find?_eq_none]
      push_neg
      exact ⟨kv, hkv, by simpa using hmatch⟩
    obtain ⟨kv0, hfind⟩ := Option.ne_none_iff_exists'.mp hne
    rw [hfind]
    have hmem0 := List.mem_of_find?_eq_some hfind
    have hp0 := List.find?_some hfind
    rw [beq_iff_eq] at hp0
    exact mapa_colunas_coerente hmem0 hkv (by rw [← hp0, hmatch])

/-- Witness for C6 on a concrete header row: all aliases are renamed and
validation succeeds. -/
theorem C6_validar_colunas_witness :
    (["STATUS", "Guiche", "usuario", "retirada", "inicio", "fim",
       "tpatend", "tpesper", "prefixo"].map renomearColuna =
      ["status", "guichê", "usuário", "retirada", "inicio", "fim",
       "tpatend", "tpesper", "prefixo"]) ∧
    (∀ c ∈ colunas_obrigatorias,
      c ∈ ["STATUS", "Guiche", "usuario", "retirada", "inicio", "fim",
            "tpatend", "tpesper", "prefixo"].map renomearColuna) := by
  have h := (C6_validar_colunas ["STATUS", "Guiche", "usuario", "retirada",
    "inicio", "fim", "tpatend", "tpesper", "prefixo"]).2.1
    (["STATUS", "Guiche", "usuario", "retirada", "inicio", "fim",
      "tpatend", "tpesper", "prefixo"].map renomearColuna) rfl
  exact ⟨by decide, h.2⟩

/-- `pd.merge(dados_p1, dados_p2, on=key, suffixes=(_p1, _p2))` with the
default inner join, on frames of (key, metric) rows: each period-1 row is
paired with every period-2 row of the same key. -/
def mergeInner (p1 p2 : List (String × ℚ)) : List (String × ℚ × ℚ) :=
  p1.flatMap (fun a =>
    (p2.filter (fun b => b.1 == a.1)).map (fun b => (a.1, a.2, b.2)))

/-- The `variacao` column formula `(m2 - m1) / m1 * 100` shared by the
comparison dashboards, with pandas float division. -/
def variacao_pct (v1 v2 : ℚ) : PdVal := pdMulC (pdDiv (v2 - v1) v1) 100

/-- `mov_cliente.criar_grafico_comparativo`: inner merge on cliente, then
the `variacao` column on `quantidade`. -/
def df_comp_mov_cliente (p1 p2 : List (String × ℚ)) :
    List (String × ℚ × ℚ × PdVal) :=
  (mergeInner p1 p2).map (fun x => (x.1, x.2.1, x.2.2, variacao_pct x.2.1 x.2.2))

/-- `espera.criar_grafico_comparativo`: inner merge on the group, then the
`variacao` column on `media` (the count columns are irrelevant here and
omitted). -/
def df_comp_espera (p1 p2 : List (String × ℚ)) :
    List (String × ℚ × ℚ × PdVal) :=
  (mergeInner p1 p2).map (fun x => (x.1, x.2.1, x.2.2, variacao_pct x.2.1 x.2.2))

/-- `tempo_atend.criar_grafico_comparativo`: inner merge on the group, then
the `variacao` column on `media`. -/
def df_comp_tempo_atend (p1 p2 : List (String × ℚ)) :
    List (String × ℚ × ℚ × PdVal) :=
  (mergeInner p1 p2).map (fun x => (x.1, x.2.1, x.2.2, variacao_pct x.2.1 x.2.2))

/-- Rows of the inner-merged comparison frame carry keys present in both
periods, with the two metric values taken from the matching rows. -/
theorem mem_df_comp {p1 p2 : List (String × ℚ)} {k : String} {v1 v2 : ℚ} {w : PdVal}
    (hmem : (k, v1, v2, w) ∈ df_comp_mov_cliente p1 p2) :
    w = variacao_pct v1 v2 ∧ (k, v1) ∈ p1 ∧ (k, v2) ∈ p2 := by
  unfold df_comp_mov_cliente mergeInner at hmem
  obtain ⟨x, hx, hxe⟩ := List.mem_map.mp hmem
  obtain ⟨a, ha, hb⟩ := List.mem_flatMap.mp hx
  obtain ⟨b, hbf, hbe⟩ := List.mem_map.mp hb
  obtain ⟨hbp, hkey⟩ := List.mem_filter.mp hbf
  rw [beq_iff_eq] at hkey
  subst hbe
  obtain ⟨ka, va⟩ := a
  obtain ⟨kb, vb⟩ := b
  simp only [Prod.mk.injEq] at hxe
  obtain ⟨hk, hv1, hv2, hw⟩ := hxe
  subst hk
  subst hv1
  subst hv2
  subst hw
  refine ⟨rfl, ha, ?_⟩
  simp only at hkey
  rw [← hkey]
  exact hbp

/-- With a nonzero denominator, the pandas variation is the plain rational
formula. -/
theorem variacao_pct_num {v1 v2 : ℚ} (hv1 : v1 ≠ 0) :
    variacao_pct v1 v2 = .num ((v2 - v1) / v1 * 100) := by
  unfold variacao_pct pdDiv pdMulC
  rw [if_neg hv1]

/-- C7: in each of the three comparison dashboards (mov_cliente, espera,
tempo_atend), every row of the merged frame concerns a dimension value
present in both periods, and when its period-1 metric `v1` is nonzero the
reported variation equals `(v2 - v1) / v1 * 100`. -/
theorem C7_variacao_percentual (p1 p2 : List (String × ℚ)) (k : String)
    (v1 v2 : ℚ) (w : PdVal)
    (hmem : (k, v1, v2, w) ∈ df_comp_mov_cliente p1 p2 ∨
            (k, v1, v2, w) ∈ df_comp_espera p1 p2 ∨
            (k, v1, v2, w) ∈ df_comp_tempo_atend p1 p2)
    (hv1 : v1 ≠ 0) :
    w = .num ((v2 - v1) / v1 * 100) ∧ (k, v1) ∈ p1 ∧ (k, v2) ∈ p2 := by
  have hm : (k, v1, v2, w) ∈ df_comp_mov_cliente p1 p2 := by
    rcases hmem with h | h | h <;> exact h
  obtain ⟨hw, h1, h2⟩ := mem_df_comp hm
  exact ⟨hw.trans (variacao_pct_num hv1), h1, h2⟩

/-- Witness for C7 on singleton frames for the client A. -/
theorem C7_variacao_percentual_witness :
    variacao_pct 3 2 = .num (((2:ℚ) - 3) / 3 * 100) ∧
    ("A", (3:ℚ)) ∈ [("A", (3:ℚ))] ∧ ("A", (2:ℚ)) ∈ [("A", (2:ℚ))] := by
  have hm : ("A", (3:ℚ), (2:ℚ), variacao_pct 3 2) ∈
      df_comp_mov_cliente [("A", (3:ℚ))] [("A", (2:ℚ))] := by
    simp [df_comp_mov_cliente, mergeInner]
  exact C7_variacao_percentual [("A", 3)] [("A", 2)] "A" 3 2
    (variacao_pct 3 2) (Or.inl hm) (by decide)

/-- `mov_cliente.calcular_movimentacao_por_periodo`: group the filtered
records by CLIENTE (rows with a missing CLIENTE are dropped by the pandas
groupby) and count the `id` column. -/
def calcular_movimentacao_por_periodo (df : List RegistroFinal) : List (String × ℚ) :=
  ((df.filterMap (fun f => f.CLIENTE)).dedup).map
    (fun c => (c, ((df.filter (fun f => f.CLIENTE == some c)).length : ℚ)))

/-- Every group produced by the CLIENTE groupby counts at least one record. -/
theorem movimentacao_ge_one {df : List RegistroFinal} {k : String} {q : ℚ}
    (hm : (k, q) ∈ calcular_movimentacao_por_periodo df) : 1 ≤ q := by
  unfold calcular_movimentacao_por_periodo at hm
  obtain ⟨c, hc, hce⟩ := List.mem_map.mp hm
  simp only [Prod.mk.injEq] at hce
  obtain ⟨hk, hq⟩ := hce
  subst hk
  subst hq
  rw [List.mem_dedup] at hc
  obtain ⟨f, hf, hfc⟩ := List.mem_filterMap.mp hc
  have hmemf : f ∈ df.filter (fun f2 => f2.CLIENTE == some c) :=
    List.mem_filter.mpr ⟨hf, by simp [hfc]⟩
  have hlen : 1 ≤ (df.filter (fun f2 => f2.CLIENTE == some c)).length :=
    List.length_pos.mpr (List.ne_nil_of_mem hmemf)
  exact_mod_cast hlen

/-- C9: in the client-movement comparison, both counts of every merged row
come from nonempty groups, so the period-1 count is at least 1 and in
particular nonzero, and the variation denominator never vanishes: the
variation is the finite value `(q2 - q1) / q1 * 100`. -/
theorem C9_sem_divisao_por_zero (l1 l2 : List RegistroFinal) (k : String)
    (q1 q2 : ℚ) (w : PdVal)
    (hmem : (k, q1, q2, w) ∈ df_comp_mov_cliente
      (calcular_movimentacao_por_periodo l1) (calcular_movimentacao_por_periodo l2)) :
    1 ≤ q1 ∧ 1 ≤ q2 ∧ q1 ≠ 0 ∧ w = .num ((q2 - q1) / q1 * 100) := by
  obtain ⟨hw, h1, h2⟩ := mem_df_comp hmem
  have hq1 := movimentacao_ge_one h1
  have hq2 := movimentacao_ge_one h2
  have hne : q1 ≠ 0 := by
    intro h0
    rw [h0] at hq1
    norm_num at hq1
  exact ⟨hq1, hq2, hne, hw.trans (variacao_pct_num hne)⟩

/-- Concrete final record of client A, for witnesses. -/
def exRegFin : RegistroFinal :=
  ⟨⟨1, "P1", "ATENDIDO", "G1", "ana", 900, 1000, 1010, 100, 50⟩,
    some "A", some "X", 150⟩

/-- Witness for C9 on two one-record periods for client A. -/
theorem C9_sem_divisao_por_zero_witness :
    (1:ℚ) ≤ 1 ∧ (1:ℚ) ≤ 1 ∧ (1:ℚ) ≠ 0 ∧
      variacao_pct 1 1 = .num (((1:ℚ) - 1) / 1 * 100) := by
  have hm : ("A", (1:ℚ), (1:ℚ), variacao_pct 1 1) ∈
      df_comp_mov_cliente (calcular_movimentacao_por_periodo [exRegFin])
        (calcular_movimentacao_por_periodo [exRegFin]) := by
    simp [df_comp_mov_cliente, mergeInner, calcular_movimentacao_por_periodo, exRegFin]
  have h := C9_sem_divisao_por_zero [exRegFin] [exRegFin] "A" 1 1 (variacao_pct 1 1) hm
  exact ⟨h.1, h.2.1, h.2.2.1, h.2.2.2⟩

/-- `pd.merge(..., how=outer).fillna(0)` on (colaborador, tempo_ocioso)
frames: matched keys keep both values, keys of only one period get 0 for
the missing one.  The pandas row order (sorted keys) is irrelevant to the
claims and is abstracted: matched and left-only rows first, right-only
rows after. -/
def outer_merge_fillna0 (p1 p2 : List (String × ℚ)) : List (String × ℚ × ℚ) :=
  p1.flatMap (fun a =>
    if (p2.filter (fun b => b.1 == a.1)).isEmpty then [(a.1, a.2, 0)]
    else (p2.filter (fun b => b.1 == a.1)).map (fun b => (a.1, a.2, b.2))) ++
  (p2.filter (fun b => !((p1.map Prod.fst).contains b.1))).map
    (fun b => (b.1, 0, b.2))

/-- The `variacao` column of the ociosidade comparison:
`((p2 - p1) / p1 * 100).replace([float(﹡inf﹡)], 100)`. -/
def variacao_ocio (v1 v2 : ℚ) : PdVal :=
  replaceInf100 (pdMulC (pdDiv (v2 - v1) v1) 100)

/-- `ociosidade.criar_grafico_comparativo`: outer merge, fillna(0), then
the replaced variation column. -/
def criar_grafico_comparativo_ocio (p1 p2 : List (String × ℚ)) :
    List (String × ℚ × ℚ × PdVal) :=
  (outer_merge_fillna0 p1 p2).map
    (fun x => (x.1, x.2.1, x.2.2, variacao_ocio x.2.1 x.2.2))

/-- `ociosidade.gerar_insights_ociosidade`: the same outer merge,
fillna(0) and replaced variation column, rebuilt from `ocio_p1`/`ocio_p2`. -/
def gerar_insights_ociosidade (p1 p2 : List (String × ℚ)) :
    List (String × ℚ × ℚ × PdVal) :=
  (outer_merge_fillna0 p1 p2).map
    (fun x => (x.1, x.2.1, x.2.2, variacao_ocio x.2.1 x.2.2))

/-- Rows of the outer-merged frame: the key comes from one of the periods,
a missing period contributes 0, and matched values come from the inputs. -/
theorem mem_outer_merge {p1 p2 : List (String × ℚ)} {k : String} {v1 v2 : ℚ}
    (hmem : (k, v1, v2) ∈ outer_merge_fillna0 p1 p2) :
    ((k, v1) ∈ p1 ∨ (v1 = 0 ∧ k ∉ p1.map Prod.fst)) ∧
    ((k, v2) ∈ p2 ∨ (v2 = 0 ∧ (p2.filter (fun b => b.1 == k)).isEmpty)) := by
  rw [outer_merge_fillna0, List.mem_append] at hmem
  rcases hmem with hl | hr
  · obtain ⟨a, ha, hx⟩ := List.mem_flatMap.mp hl
    by_cases hf : (p2.filter (fun b => b.1 == a.1)).isEmpty
    · rw [if_pos hf] at hx
      rw [List.mem_singleton, Prod.mk.injEq, Prod.mk.injEq] at hx
      obtain ⟨hk, hv1, hv2⟩ := hx
      subst hk
      subst hv1
      subst hv2
      obtain ⟨ka, va⟩ := a
      exact ⟨Or.inl ha, Or.inr ⟨rfl, by simpa using hf⟩⟩
    · rw [if_neg hf] at hx
      obtain ⟨b, hbf, hbe⟩ := List.mem_map.mp hx
      obtain ⟨hbp, hkey⟩ := List.mem_filter.mp hbf
      rw [beq_iff_eq] at hkey
      rw [Prod.mk.injEq, Prod.mk.injEq] at hbe
      obtain ⟨hk, hv1, hv2⟩ := hbe
      subst hk
      subst hv1
      subst hv2
      obtain ⟨ka, va⟩ := a
      obtain ⟨kb, vb⟩ := b
      refine ⟨Or.inl ha, Or.inl ?_⟩
      simp only at hkey
      rw [← hkey]
      exact hbp
  · obtain ⟨b, hbf, hbe⟩ := List.mem_map.mp hr
    obtain ⟨hbp, hnc⟩ := List.mem_filter.mp hbf
    rw [Prod.mk.injEq, Prod.mk.injEq] at hbe
    obtain ⟨hk, hv1, hv2⟩ := hbe
    subst hk
    subst hv1
    subst hv2
    obtain ⟨kb, vb⟩ := b
    refine ⟨Or.inr ⟨rfl, ?_⟩, Or.inl hbp⟩
    intro hmemk
    have hx : (List.map Prod.fst p1).contains (kb, vb).1 = true :=
      List.elem_iff.mpr hmemk
    rw [hx] at hnc
    simp at hnc

/-- Keys of either period are represented in the outer merge. -/
theorem outer_merge_total {p1 p2 : List (String × ℚ)} {k : String}
    (hk : k ∈ p1.map Prod.fst ∨ k ∈ p2.map Prod.fst) :
    ∃ v1 v2, (k, v1, v2) ∈ outer_merge_fillna0 p1 p2 := by
  by_cases h1 : k ∈ p1.map Prod.fst
  · obtain ⟨a, ha, hka⟩ := List.mem_map.mp h1
    by_cases hf : (p2.filter (fun b => b.1 == a.1)).isEmpty
    · refine ⟨a.2, 0, ?_⟩
      rw [outer_merge_fillna0, List.mem_append]
      refine Or.inl (List.mem_flatMap.mpr ⟨a, ha, ?_⟩)
      rw [if_pos hf, hka]
      exact List.mem_singleton.mpr rfl
    · obtain ⟨b, hbm⟩ := List.exists_mem_of_ne_nil
        (p2.filter (fun b => b.1 == a.1)) (fun hnil => hf (by rw [hnil]; rfl))
      refine ⟨a.2, b.2, ?_⟩
      rw [outer_merge_fillna0, List.mem_append]
      refine Or.inl (List.mem_flatMap.mpr ⟨a, ha, ?_⟩)
      rw [if_neg hf]
      exact List.mem_map.mpr ⟨b, hbm, by rw [hka]⟩
  · rcases hk with hc | h2
    · exact absurd hc h1
    · obtain ⟨b, hb, hkb⟩ := List.mem_map.mp h2
      refine ⟨0, b.2, ?_⟩
      rw [outer_merge_fillna0, List.mem_append]
      refine Or.inr (List.mem_map.mpr ⟨b, ?_, by rw [hkb]⟩)
      refine List.mem_filter.mpr ⟨hb, ?_⟩
      rw [hkb]
      cases hcon : (List.map Prod.fst p1).contains k with
      | false => rfl
      | true => exact absurd (List.elem_iff.mp hcon) h1

/-- A zero period-1 value with a positive period-2 value yields `+inf`
in the raw variation, replaced by 100. -/
theorem variacao_ocio_cem {v1 v2 : ℚ} (h1 : v1 = 0) (h2 : 0 < v2) :
    variacao_ocio v1 v2 = .num 100 := by
  subst h1
  unfold variacao_ocio pdDiv
  rw [if_pos rfl, if_neg (by linarith : ¬v2 - 0 = 0), if_pos (by linarith : 0 < v2 - 0)]
  unfold pdMulC
  rw [if_pos (by norm_num : (0:ℚ) < 100)]
  rfl

/-- C10: the ociosidade comparison (both the chart and the insights frame)
includes every collaborator of either period, takes 0 for the period a
collaborator is absent from, and reports exactly 100 as the variation when
the period-1 idle time is 0 and the period-2 idle time is positive. -/
theorem C10_ociosidade_outer_merge (p1 p2 : List (String × ℚ)) :
    (∀ (k : String) (v1 v2 : ℚ) (w : PdVal),
      ((k, v1, v2, w) ∈ criar_grafico_comparativo_ocio p1 p2 ∨
       (k, v1, v2, w) ∈ gerar_insights_ociosidade p1 p2) →
      ((k, v1) ∈ p1 ∨ (v1 = 0 ∧ k ∉ p1.map Prod.fst)) ∧
      ((k, v2) ∈ p2 ∨ v2 = 0) ∧
      (v1 = 0 → 0 < v2 → w = .num 100)) ∧
    (∀ k : String, (k ∈ p1.map Prod.fst ∨ k ∈ p2.map Prod.fst) →
      ∃ v1 v2 w, (k, v1, v2, w) ∈ criar_grafico_comparativo_ocio p1 p2 ∧
        (k, v1, v2, w) ∈ gerar_insights_ociosidade p1 p2) := by
  constructor
  · intro k v1 v2 w hmem
    have hm : (k, v1, v2, w) ∈ criar_grafico_comparativo_ocio p1 p2 := by
      rcases hmem with h | h <;> exact h
    unfold criar_grafico_comparativo_ocio at hm
    obtain ⟨x, hx, hxe⟩ := List.mem_map.mp hm
    obtain ⟨xk, xv1, xv2⟩ := x
    rw [Prod.mk.injEq, Prod.mk.injEq, Prod.mk.injEq] at hxe
    obtain ⟨hk, hv1, hv2, hw⟩ := hxe
    subst hk
    subst hv1
    subst hv2
    subst hw
    obtain ⟨ho1, ho2⟩ := mem_outer_merge hx
    refine ⟨ho1, ?_, fun h1 h2 => variacao_ocio_cem h1 h2⟩
    rcases ho2 with h | h
    · exact Or.inl h
    · exact Or.inr h.1
  · intro k hk
    obtain ⟨v1, v2, hm⟩ := outer_merge_total hk
    exact ⟨v1, v2, variacao_ocio v1 v2,
      List.mem_map.mpr ⟨(k, v1, v2), hm, rfl⟩,
      List.mem_map.mpr ⟨(k, v1, v2), hm, rfl⟩⟩

/-- Witness for C10: a collaborator present only in period 2 gets period-1
idle time 0 and variation 100. -/
theorem C10_ociosidade_outer_merge_witness :
    (((("bo", (0:ℚ)) ∈ ([] : List (String × ℚ))) ∨
        ((0:ℚ) = 0 ∧ "bo" ∉ ([] : List (String × ℚ)).map Prod.fst)) ∧
      ((("bo", (5:ℚ)) ∈ [("bo", (5:ℚ))]) ∨ (5:ℚ) = 0) ∧
      ((0:ℚ) = 0 → (0:ℚ) < 5 → variacao_ocio 0 5 = .num 100)) ∧
    variacao_ocio 0 5 = .num 100 := by
  have hm : ("bo", (0:ℚ), (5:ℚ), variacao_ocio 0 5) ∈
      criar_grafico_comparativo_ocio [] [("bo", (5:ℚ))] := by
    simp [criar_grafico_comparativo_ocio, outer_merge_fillna0]
  have h := (C10_ociosidade_outer_merge [] [("bo", (5:ℚ))]).1 "bo" 0 5
    (variacao_ocio 0 5) (Or.inl hm)
  exact ⟨h, h.2.2 rfl (by decide)⟩

/-- `df.groupby(﹡hora﹡)[﹡id﹡].count()` in `comboio_i.mostrar_aba`: the
per-hour withdrawal counts, listed for the hours (ascending) that have at
least one withdrawal. -/
def contagem_por_hora (df : List Registro) : List (Nat × Nat) :=
  (List.range 24).filterMap (fun h =>
    if (df.filter (fun r => hourOf r.retirada == h)).length = 0 then none
    else some (h, (df.filter (fun r => hourOf r.retirada == h)).length))

/-- Pandas `Series.mean()`. -/
def mediaQ (xs : List ℚ) : ℚ := xs.sum / xs.length

/-- Pandas `Series.var()` (the square of `Series.std()`): the sample
variance with denominator `n - 1`. -/
def varAmostral (xs : List ℚ) : ℚ :=
  ((xs.map (fun x => (x - mediaQ xs) ^ 2)).sum) / ((xs.length : ℚ) - 1)

/-- The per-hour counts as rationals. -/
def contagensHora (df : List Registro) : List ℚ :=
  (contagem_por_hora df).map (fun p => (p.2 : ℚ))

/-- `picos.mean()`. -/
def media_picos (df : List Registro) : ℚ := mediaQ (contagensHora df)

/-- `picos.std() ** 2`. -/
def var_picos (df : List Registro) : ℚ := varAmostral (contagensHora df)

/-- `horarios_criticos = picos[picos > picos.mean() + picos.std()]`: the
strict comparison against mean plus standard deviation, embedded by the
equivalent square-free test `mean < c and var < (c - mean)^2` so that the
definition stays executable; the main theorem proves this test equal to the
source comparison with the genuine square root over the reals. -/
def horarios_criticos (df : List Registro) : List (Nat × Nat) :=
  (contagem_por_hora df).filter (fun p =>
    decide (media_picos df < (p.2 : ℚ)) &&
    decide (var_picos df < ((p.2 : ℚ) - media_picos df) ^ 2))

/-- `retirada.dt.floor(﹡15T﹡)`: the 15-minute window of a timestamp. -/
def periodo15 (t : Nat) : Nat := t / 900

/-- `df.groupby([﹡data﹡, ﹡periodo_15min﹡])[﹡id﹡].count()`: counts per
15-minute window (the window key determines the date). -/
def contagem_por_15min (df : List Registro) : List (Nat × Nat) :=
  ((df.map (fun r => periodo15 r.retirada)).dedup).map
    (fun k => (k, (df.filter (fun r => periodo15 r.retirada == k)).length))

/-- The per-window counts as rationals. -/
def contagens15 (df : List Registro) : List ℚ :=
  (contagem_por_15min df).map (fun p => (p.2 : ℚ))

/-- `comboios_por_data.mean()`. -/
def media_15 (df : List Registro) : ℚ := mediaQ (contagens15 df)

/-- `comboios_por_data.std() ** 2`. -/
def var_15 (df : List Registro) : ℚ := varAmostral (contagens15 df)

/-- Executable characterisation of
`threshold = int(comboios_por_data.mean() + comboios_por_data.std())`:
`z` satisfies it exactly when `z` is the integer truncation of
`mean + sqrt(var)` (proved in the main theorem). -/
def threshold_carac (m v : ℚ) (z : ℤ) : Prop :=
  ((z : ℚ) ≤ m ∨ ((z : ℚ) - m) ^ 2 ≤ v) ∧
  (m < (z : ℚ) + 1 ∧ v < ((z : ℚ) + 1 - m) ^ 2)

/-- The sample variance is nonnegative (also under the junk values the
rational division gives for lists of length at most one). -/
theorem varAmostral_nonneg (xs : List ℚ) : 0 ≤ varAmostral xs := by
  match xs with
  | [] => norm_num [varAmostral, mediaQ]
  | [x] => norm_num [varAmostral, mediaQ]
  | x :: y :: t =>
    apply div_nonneg
    · apply List.sum_nonneg
      intro q hq
      obtain ⟨w, hw, rfl⟩ := List.mem_map.mp hq
      exact sq_nonneg _
    · have hlen : 2 ≤ (x :: y :: t).length := by
        simp [List.length_cons]
      have h2 : (2:ℚ) ≤ ((x :: y :: t).length : ℚ) := by exact_mod_cast hlen
      linarith

/-- Strict comparison against `m + √v` is the square-free two-part test. -/
theorem lt_add_sqrt_iff {m v c : ℝ} :
    m + Real.sqrt v < c ↔ (m < c ∧ v < (c - m) ^ 2) := by
  constructor
  · intro h
    have hs := Real.sqrt_nonneg v
    have hm : m < c := by linarith
    have hlt : Real.sqrt v < c - m := by linarith
    exact ⟨hm, (Real.sqrt_lt' (by linarith)).mp hlt⟩
  · rintro ⟨hm, hv2⟩
    have : Real.sqrt v < c - m := (Real.sqrt_lt' (by linarith)).mpr hv2
    linarith

/-- Lower comparison against `m + √v` is the square-free two-part test. -/
theorem le_add_sqrt_iff {m v z : ℝ} :
    z ≤ m + Real.sqrt v ↔ (z ≤ m ∨ (z - m) ^ 2 ≤ v) := by
  have hs := Real.sqrt_nonneg v
  constructor
  · intro h
    by_cases hz : z ≤ m
    · exact Or.inl hz
    · push_neg at hz
      right
      have h2 : z - m ≤ Real.sqrt v := by linarith
      exact (Real.le_sqrt' (by linarith)).mp h2
  · rintro (hz | hsq)
    · linarith
    · by_cases hz : z ≤ m
      · linarith
      · push_neg at hz
        have := (Real.le_sqrt' (by linarith : (0:ℝ) < z - m)).mpr hsq
        linarith

/-- C8: an hour is reported as critical iff it is a withdrawal hour whose
count strictly exceeds the mean plus one (sample) standard deviation of
the per-hour counts; and, when at least two 15-minute windows exist, an
integer is the reported alert threshold iff it is the integer truncation
of the mean plus one standard deviation of the per-window counts. -/
theorem C8_comboio_criticos (df : List Registro) :
    (∀ h c : Nat, ((h, c) ∈ horarios_criticos df ↔
      ((h, c) ∈ contagem_por_hora df ∧
        ((media_picos df : ℝ) + Real.sqrt (var_picos df) < (c : ℝ))))) ∧
    (2 ≤ (contagem_por_15min df).length →
      ∀ z : ℤ, (threshold_carac (media_15 df) (var_15 df) z ↔
        z = ⌊(media_15 df : ℝ) + Real.sqrt (var_15 df)⌋)) := by
  constructor
  · intro h c
    unfold horarios_criticos
    rw [List.mem_filter]
    apply and_congr_right
    intro hmem
    rw [Bool.and_eq_true, decide_eq_true_eq, decide_eq_true_eq, lt_add_sqrt_iff]
    constructor
    · rintro ⟨h1, h2⟩
      exact ⟨by exact_mod_cast h1, by exact_mod_cast h2⟩
    · rintro ⟨h1, h2⟩
      exact ⟨by exact_mod_cast h1, by exact_mod_cast h2⟩
  · intro hn z
    conv_rhs => rw [eq_comm, Int.floor_eq_iff]
    rw [le_add_sqrt_iff, lt_add_sqrt_iff]
    unfold threshold_carac
    constructor
    · rintro ⟨hA, hC, hD⟩
      refine ⟨?_, ?_, ?_⟩
      · rcases hA with h1 | h1
        · exact Or.inl (by exact_mod_cast h1)
        · exact Or.inr (by exact_mod_cast h1)
      · exact_mod_cast hC
      · exact_mod_cast hD
    · rintro ⟨hA, hC, hD⟩
      refine ⟨?_, ?_, ?_⟩
      · rcases hA with h1 | h1
        · exact Or.inl (by exact_mod_cast h1)
        · exact Or.inr (by exact_mod_cast h1)
      · exact_mod_cast hC
      · exact_mod_cast hD

/-- Three withdrawals: two in hour 9 (one 15-minute window) and one in
hour 10, giving two hour groups and two 15-minute windows. -/
def exC8 : List Registro :=
  [⟨1, "P", "ATENDIDO", "G", "u", 32400, 32460, 32500, 100, 50⟩,
   ⟨2, "P", "ATENDIDO", "G", "u", 32410, 32520, 32580, 100, 50⟩,
   ⟨3, "P", "ATENDIDO", "G", "u", 36000, 36060, 36120, 100, 50⟩]

/-- Witness for C8 on the concrete three-withdrawal dataframe. -/
theorem C8_comboio_criticos_witness :
    2 ≤ (contagem_por_15min exC8).length ∧
    (((9, 2) ∈ horarios_criticos exC8) ↔
      ((9, 2) ∈ contagem_por_hora exC8 ∧
        ((media_picos exC8 : ℝ) + Real.sqrt (var_picos exC8) < ((2:ℕ) : ℝ)))) ∧
    (threshold_carac (media_15 exC8) (var_15 exC8) 2 ↔
      2 = ⌊(media_15 exC8 : ℝ) + Real.sqrt (var_15 exC8)⌋) :=
  ⟨by decide, (C8_comboio_criticos exC8).1 9 2,
    ((C8_comboio_criticos exC8).2 (by decide)) 2⟩
